import Mathlib

/-!
Verification development for the `work_helper` repository's foreign-scripting
bridge: the AppleScript value-marshaling layer (`src/utils/applescript.py`)
and the calendar event-creation operation (`src/utils/calendar.py`), plus the
tool-exposure call in `src/apple_mcp.py`.

Python strings are embedded as Lean `String` (a structure over `List Char`);
the character-level loops of the source are reproduced as structural
recursions over `List Char`.  Python numeric values are embedded as `Int`
(Python `int`) and `ℚ` (Python `float`; every float value reached by the
claims is an exact short decimal, on which CPython `str`/`float` round-trip
exactly, so exact rational arithmetic coincides with the source's float
arithmetic there).  Fallible operations are embedded with `Option`/`Except`.
-/

namespace WorkHelper

/-- The double-quote character. -/
def quo : Char := Char.ofNat 34

/-- The backslash character. -/
def bs : Char := Char.ofNat 92

/-- The apostrophe (single-quote) character. -/
def apos : Char := Char.ofNat 39

/-- Python `str.replace(c, r)` for a single-character pattern `c` and a
replacement string `r`, on the character-list representation: every
occurrence of `c` is replaced by `r`. -/
def replaceChar (c : Char) (r : List Char) : List Char → List Char
  | [] => []
  | x :: xs => (if x = c then r else [x]) ++ replaceChar c r xs

/-- `escape_string` from `src/utils/applescript.py` (lines 344–354):
`s.replace(CHR34, BACKSLASH CHR34).replace(CHR39, BACKSLASH CHR39)` — first
every double quote is prefixed with a backslash, then every apostrophe.
Backslashes themselves are not escaped. -/
def escape_string (s : String) : String :=
  String.mk (replaceChar apos [bs, apos] (replaceChar quo [bs, quo] s.data))

/-- The dynamic Python values flowing through the marshaling layer:
`None`, `bool`, `int`, `float` (as exact rational, see module header),
`str`, `list`, `dict` (as an insertion-ordered association list, the
embedding of a Python `dict`). -/
inductive PyVal where
  | none
  | bool (b : Bool)
  | int (n : Int)
  | float (q : ℚ)
  | str (s : String)
  | list (vs : List PyVal)
  | record (kvs : List (String × PyVal))

/-- Decimal digit character for a value `< 10`. -/
def digitChar (n : ℕ) : Char := Char.ofNat (48 + n)

/-- Decimal expansion of the fractional remainder `r / d` (with `r < d`),
producing digits until the remainder vanishes or the fuel runs out. -/
def fracDigits : ℕ → ℕ → ℕ → List Char
  | 0, _, _ => []
  | _ + 1, 0, _ => []
  | fuel + 1, r, d => digitChar (r * 10 / d) :: fracDigits fuel (r * 10 % d) d

/-- CPython `str()` on a float, modelled on exact rationals: sign, integer
part, a dot, then the decimal digits of the fractional part (`"0"` when the
value is integral, as in `str(1.0) = "1.0"`).  Exact for every float whose
value is a short decimal, which covers all values reached by the claims;
CPython's shortest-round-trip repr agrees with the exact expansion there. -/
def ratRepr (q : ℚ) : String :=
  let sign := if q < 0 then "-" else ""
  let n := q.num.natAbs
  let d := q.den
  let ip := n / d
  let r := n % d
  let frac := if r = 0 then "0" else String.mk (fracDigits 30 r d)
  sign ++ toString ip ++ "." ++ frac

mutual
/-- `format_applescript_value` from `src/utils/applescript.py` (lines
356–390): `None` → `missing value`; booleans lower-cased; numbers via
`str()`; lists and records brace-wrapped with `", "`-joined items (record
keys bare, followed by a colon); any other value stringified, escaped via
`escape_string` and double-quoted. -/
def format_applescript_value : PyVal → String
  | .none => "missing value"
  | .bool b => if b then "true" else "false"
  | .int n => toString n
  | .float q => ratRepr q
  | .str s => "\"" ++ escape_string s ++ "\""
  | .list vs => "\x7b" ++ String.intercalate ", " (formatItems vs) ++ "\x7d"
  | .record kvs => "\x7b" ++ String.intercalate ", " (formatPairs kvs) ++ "\x7d"

/-- The element-wise formatting of a list value's items. -/
def formatItems : List PyVal → List String
  | [] => []
  | v :: vs => format_applescript_value v :: formatItems vs

/-- The pair-wise formatting of a record value's `key:value` entries. -/
def formatPairs : List (String × PyVal) → List String
  | [] => []
  | (k, v) :: kvs => (k ++ ":" ++ format_applescript_value v) :: formatPairs kvs
end

/-- Python `str.strip()` (ASCII whitespace at both ends) on a char list. -/
def trimChars (cs : List Char) : List Char :=
  ((cs.dropWhile Char.isWhitespace).reverse.dropWhile Char.isWhitespace).reverse

/-- Python `str.strip()` on a string. -/
def pyStrip (s : String) : String := String.mk (trimChars s.data)

/-- The main loop of `parse_applescript_list` (lines 195–210 of
`src/utils/applescript.py`): iterate over the characters, toggling
`in_quotes` at a double quote not preceded by a backslash in the
accumulated `current`, splitting at commas outside quotes (appending the
stripped `current`), accumulating every other character; at the end the
remaining nonempty `current` is appended (stripped). -/
def splitItems (cs : List Char) (current : List Char) (inq : Bool) :
    List (List Char) :=
  match cs with
  | [] => if current = [] then [] else [trimChars current]
  | c :: rest =>
    if c = quo ∧ (current = [] ∨ current.getLast? ≠ some bs) then
      splitItems rest (current ++ [c]) (!inq)
    else if c = ',' ∧ inq = false then
      trimChars current :: splitItems rest [] inq
    else
      splitItems rest (current ++ [c]) inq

/-- The cleanup pass of `parse_applescript_list` (lines 213–218): each item
is stripped, and one pair of surrounding double quotes is removed when the
item both starts and ends with a double quote (as in Python, a lone `CHR34`
satisfies both tests and becomes the empty string). -/
def stripQuotes (item : List Char) : List Char :=
  let item := trimChars item
  if item.head? = some quo ∧ item.getLast? = some quo then
    (item.drop 1).dropLast
  else item

/-- `parse_applescript_list` from `src/utils/applescript.py` (lines
170–222): empty input gives `[]`; otherwise the input is stripped, one
matching pair of outer braces is removed, the character loop `splitItems`
splits on top-level commas, and each item is cleaned by `stripQuotes`. -/
def parse_applescript_list (output : String) : List String :=
  if output = "" then []
  else
    let out := pyStrip output
    let out :=
      if out.data.head? = some '\x7b' ∧ out.data.getLast? = some '\x7d' then
        String.mk ((out.data.drop 1).dropLast)
      else out
    (splitItems out.data [] false).map (fun it => String.mk (stripQuotes it))

/-- Numeric value of a decimal digit character. -/
def digVal (c : Char) : ℕ := c.toNat - 48

/-- Whether every character of the list is a decimal digit. -/
def allDigits (cs : List Char) : Bool := cs.all Char.isDigit

/-- Value of a list of decimal digit characters (most significant first). -/
def digitsVal (cs : List Char) : ℕ :=
  cs.foldl (fun a c => a * 10 + digVal c) 0

/-- CPython `int(s)` on an already-stripped string: an optional sign
followed by a nonempty run of decimal digits; anything else raises
`ValueError`, embedded as `none`. -/
def pyInt (s : String) : Option Int :=
  match s.data with
  | '-' :: ds =>
    if ds ≠ [] ∧ allDigits ds then some (-(digitsVal ds : Int)) else Option.none
  | '+' :: ds =>
    if ds ≠ [] ∧ allDigits ds then some ((digitsVal ds : ℕ) : Int) else Option.none
  | ds =>
    if ds ≠ [] ∧ allDigits ds then some ((digitsVal ds : ℕ) : Int) else Option.none

/-- Split a character list at every occurrence of the character `c`. -/
def splitOnChar (c : Char) : List Char → List (List Char)
  | [] => [[]]
  | x :: xs =>
    let r := splitOnChar c xs
    if x = c then [] :: r
    else
      match r with
      | h :: t => (x :: h) :: t
      | [] => [[x]]

/-- CPython `float(s)` on an already-stripped string, restricted to the
plain decimal grammar `[sign] digits [. digits]` with at least one digit
(the exponent and special forms of the full grammar are never reached by
this repository's inputs); failure raises `ValueError`, embedded as `none`.
The value is exact as a rational. -/
def pyFloat (s : String) : Option ℚ :=
  let signAndRest : Bool × List Char :=
    match s.data with
    | '-' :: t => (true, t)
    | '+' :: t => (false, t)
    | t => (false, t)
  let neg := signAndRest.1
  match splitOnChar '.' signAndRest.2 with
  | [a, b] =>
    if (a ≠ [] ∨ b ≠ []) ∧ allDigits a ∧ allDigits b then
      let q : ℚ := (digitsVal a : ℚ) + (digitsVal b : ℚ) / ((10 : ℚ) ^ b.length)
      some (if neg then -q else q)
    else Option.none
  | [a] =>
    if a ≠ [] ∧ allDigits a then
      some (if neg then -((digitsVal a : ℚ)) else (digitsVal a : ℚ))
    else Option.none
  | _ => Option.none

/-- Python `str.lower()` (character-wise ASCII lowering, which is all the
compared literals need). -/
def pyLower (s : String) : String := String.mk (s.data.map Char.toLower)

/-- The checks of `parse_value` that follow its numeric `try` block (lines
321–342 of `src/utils/applescript.py`): case-insensitive boolean literals,
the `missing value` null literal, a brace-delimited list parsed by
`parse_applescript_list` (a Python list of `str`), and finally the stripped
text itself as a string. -/
def parseValueTail (v : String) : PyVal :=
  if pyLower v = "true" then .bool true
  else if pyLower v = "false" then .bool false
  else if pyLower v = "missing value" then .none
  else if v.data.head? = some '\x7b' ∧ v.data.getLast? = some '\x7d' then
    .list ((parse_applescript_list v).map .str)
  else .str v

/-- `parse_value` from `src/utils/applescript.py` (lines 289–342): strip;
a string both starting and ending with a double quote loses the outer pair;
then inside one `try`, a value containing `.` is parsed by `float()` and
any other by `int()` (a `ValueError` skips past the numeric block into
`parseValueTail`). -/
def parse_value (value : String) : PyVal :=
  let v := pyStrip value
  if v.data.head? = some quo ∧ v.data.getLast? = some quo then
    .str (String.mk ((v.data.drop 1).dropLast))
  else if v.data.contains '.' then
    match pyFloat v with
    | some q => .float q
    | Option.none => parseValueTail v
  else
    match pyInt v with
    | some n => .int n
    | Option.none => parseValueTail v

/-- Python `dict` assignment `d[k] = v` on the insertion-ordered
association-list embedding: an existing key keeps its position and gets the
new value, a new key is appended. -/
def dictInsert (kvs : List (String × PyVal)) (k : String) (v : PyVal) :
    List (String × PyVal) :=
  if kvs.any (fun kv => kv.1 = k) then
    kvs.map (fun kv => if kv.1 = k then (k, v) else kv)
  else kvs ++ [(k, v)]

/-- The scanning loop of `parse_applescript_record` (lines 249–283 of
`src/utils/applescript.py`): while no key is pending and outside quotes, a
`:=` two-character lookahead ends the key (the stripped `current`); a
top-level comma with a pending key emits the pair via `parse_value`;
a double quote not preceded by a backslash in `current` toggles the quote
state; every other character is accumulated.  At the end a pending key is
emitted with the remaining `current`. -/
def recordLoop (cs : List Char) (key : Option String) (current : List Char)
    (inq : Bool) (acc : List (String × PyVal)) : List (String × PyVal) :=
  match cs with
  | [] =>
    match key with
    | some k => dictInsert acc k (parse_value (String.mk (trimChars current)))
    | Option.none => acc
  | ':' :: '=' :: rest =>
    if inq = false ∧ key = Option.none then
      recordLoop rest (some (String.mk (trimChars current))) [] inq acc
    else
      recordLoop ('=' :: rest) key (current ++ [':']) inq acc
  | c :: rest =>
    if c = ',' ∧ inq = false ∧ key ≠ Option.none then
      match key with
      | some k =>
        recordLoop rest Option.none [] inq
          (dictInsert acc k (parse_value (String.mk (trimChars current))))
      | Option.none => recordLoop rest key (current ++ [c]) inq acc
    else if c = quo ∧ (current = [] ∨ current.getLast? ≠ some bs) then
      recordLoop rest key (current ++ [c]) (!inq) acc
    else
      recordLoop rest key (current ++ [c]) inq acc

/-- `parse_applescript_record` from `src/utils/applescript.py` (lines
224–287): empty input gives the empty dictionary; otherwise the input is
stripped, one matching pair of outer braces is removed, and the scanning
loop `recordLoop` collects the `key:=value` pairs it finds. -/
def parse_applescript_record (output : String) : List (String × PyVal) :=
  if output = "" then []
  else
    let out := pyStrip output
    let out :=
      if out.data.head? = some '\x7b' ∧ out.data.getLast? = some '\x7d' then
        String.mk ((out.data.drop 1).dropLast)
      else out
    recordLoop out.data Option.none [] false []

/-- Whether `pat` is an initial segment of the second list. -/
def hasPre : List Char → List Char → Bool
  | [], _ => true
  | _ :: _, [] => false
  | p :: ps, c :: cs => p = c && hasPre ps cs

/-- Whether `pat` occurs as a contiguous segment anywhere in the list. -/
def occursIn (pat : List Char) : List Char → Bool
  | [] => pat.isEmpty
  | c :: cs => hasPre pat (c :: cs) || occursIn pat cs

/-- Worker for Python `str.replace(pat, rep)`: scan the characters one by
one; while the skip counter is positive the character belongs to an
already-matched occurrence and is dropped; at skip `0`, a position where
the (nonempty) pattern matches emits `rep` and sets the counter to skip the
rest of the match; otherwise the character is kept. -/
def replaceSubAux (pat rep : List Char) : List Char → ℕ → List Char
  | [], _ => []
  | _ :: cs, n + 1 => replaceSubAux pat rep cs n
  | c :: cs, 0 =>
    if pat ≠ [] ∧ hasPre pat (c :: cs) then
      rep ++ replaceSubAux pat rep cs (pat.length - 1)
    else c :: replaceSubAux pat rep cs 0

/-- Python `str.replace(pat, rep)` for a nonempty pattern: replace each
leftmost non-overlapping occurrence of `pat` by `rep` (an empty pattern is
treated as the identity here; every pattern used by the source is
nonempty). -/
def replaceSub (pat rep cs : List Char) : List Char :=
  replaceSubAux pat rep cs 0

/-- Python `str.replace` on strings. -/
def pyReplace (s pat rep : String) : String :=
  String.mk (replaceSub pat.data rep.data s.data)

/-- The structured result of the event operation: the dictionary
`\x7b"success": ..., "message": ...\x7d` returned by
`CalendarModule.create_event`. -/
structure CalendarResult where
  success : Bool
  message : String
deriving DecidableEq, Repr

/-- The reply classification of `CalendarModule.create_event`
(`src/utils/calendar.py` lines 123–127): `success` is whether the reply
starts with `SUCCESS:`, and `message` is the reply with every occurrence of
`SUCCESS:` and then every occurrence of `ERROR:` removed by
`str.replace`. -/
def classify (result : String) : CalendarResult :=
  { success := hasPre ("SUCCESS:".data) result.data
  , message := pyReplace (pyReplace result "SUCCESS:" "") "ERROR:" "" }

/-- Days from 1970-01-01 to the civil date `y-mo-d` (proleptic Gregorian),
the day-number arithmetic underlying Python `datetime.date`. -/
def daysFromCivil (y mo d : Int) : Int :=
  let y := if mo ≤ 2 then y - 1 else y
  let era := Int.fdiv y 400
  let yoe := y - era * 400
  let mp := Int.emod (mo + 9) 12
  let doy := Int.fdiv (153 * mp + 2) 5 + d - 1
  let doe := yoe * 365 + Int.fdiv yoe 4 - Int.fdiv yoe 100 + doy
  era * 146097 + doe - 719468

/-- A parsed date/time as produced by `dateutil.parser.parse`: the wall
clock of the literal, in seconds since epoch of its own frame, and the
UTC offset in seconds when the input carried one (`none` models a naive
result, i.e. `tzinfo is None`). -/
structure ParsedDT where
  wall : Int
  off : Option Int
deriving DecidableEq, Repr

/-- Value of two decimal digit characters, validating both. -/
def d2v (a b : Char) : Option ℕ :=
  if a.isDigit ∧ b.isDigit then some (digVal a * 10 + digVal b) else Option.none

/-- `dateutil.parser.parse` modelled on the ISO-8601 subset this module
feeds it: `YYYY-MM-DDTHH:MM:SS` optionally followed by `Z` or a
`±HH:MM` offset.  `none` models a raised `ParserError` (any string outside
the subset; `dateutil` itself is more lenient, but every string exercised
by the claims is either in this subset or unparseable by `dateutil` too). -/
def parseISO (s : String) : Option ParsedDT :=
  match s.data with
  | y1 :: y2 :: y3 :: y4 :: '-' :: mo1 :: mo2 :: '-' :: dd1 :: dd2 :: 'T' ::
    hh1 :: hh2 :: ':' :: mm1 :: mm2 :: ':' :: ss1 :: ss2 :: rest =>
    if y1.isDigit ∧ y2.isDigit ∧ y3.isDigit ∧ y4.isDigit then
      match d2v mo1 mo2, d2v dd1 dd2, d2v hh1 hh2, d2v mm1 mm2, d2v ss1 ss2 with
      | some mo, some dd, some hh, some mm, some ss =>
        if 1 ≤ mo ∧ mo ≤ 12 ∧ 1 ≤ dd ∧ dd ≤ 31 ∧ hh ≤ 23 ∧ mm ≤ 59 ∧ ss ≤ 59 then
          let y : ℕ := digVal y1 * 1000 + digVal y2 * 100 + digVal y3 * 10 + digVal y4
          let wall : Int :=
            daysFromCivil y mo dd * 86400 + (hh : Int) * 3600 + (mm : Int) * 60 + ss
          match rest with
          | [] => some ⟨wall, Option.none⟩
          | ['Z'] => some ⟨wall, some 0⟩
          | [sg, o1, o2, ':', o3, o4] =>
            match d2v o1 o2, d2v o3 o4 with
            | some oh, some om =>
              if oh ≤ 23 ∧ om ≤ 59 then
                let secs : Int := (oh : Int) * 3600 + (om : Int) * 60
                if sg = '+' then some ⟨wall, some secs⟩
                else if sg = '-' then some ⟨wall, some (-secs)⟩
                else Option.none
              else Option.none
            | _, _ => Option.none
          | _ => Option.none
        else Option.none
      | _, _, _, _, _ => Option.none
    else Option.none
  | _ => Option.none

/-- The derived quantities of `CalendarModule._create_date_setup_script`
(`src/utils/calendar.py` lines 139–176): the whole-day offset of the local
start date from local today, the local clock fields of the start instant,
and the event duration in hours. -/
structure DateParams where
  days_diff : Int
  hour : Int
  minute : Int
  second : Int
  duration_hours : ℚ
deriving DecidableEq, Repr

/-- The date computation of `CalendarModule._create_date_setup_script`:
each of `start`/`end` is parsed; a naive result has its `tzinfo` replaced
by UTC; `astimezone()` converts to the local zone (offset `localOff`
seconds).  `days_diff = (start_dt.date() - now.date()).days` with `now`
the local current time (absolute seconds `nowAbs`), the clock fields are
the local clock of the start instant, and
`duration_hours = (end_dt - start_dt).total_seconds() / 3600`.  `none`
models the `except` path taken when either parse raises. -/
def create_date_setup (start_date end_date : String) (localOff nowAbs : Int) :
    Option DateParams :=
  match parseISO start_date, parseISO end_date with
  | some sdt, some edt =>
    let sAbs := sdt.wall - sdt.off.getD 0
    let eAbs := edt.wall - edt.off.getD 0
    let sLocal := sAbs + localOff
    let nowLocal := nowAbs + localOff
    some { days_diff := Int.fdiv sLocal 86400 - Int.fdiv nowLocal 86400
         , hour := Int.fdiv (Int.emod sLocal 86400) 3600
         , minute := Int.fdiv (Int.emod sLocal 3600) 60
         , second := Int.emod sLocal 60
         , duration_hours := ((eAbs - sAbs : Int) : ℚ) / 3600 }
  | _, _ => Option.none

/-- `CalendarModule._create_date_setup_script` (`src/utils/calendar.py`
lines 135–185): on a successful parse, the relative-construction script
(start from `current date`, add the day offset when nonzero, set the clock
fields, derive the end as start plus the duration); on a parse failure, the
fallback script embedding the caller-supplied strings verbatim inside
double-quoted `date` literals. -/
def create_date_setup_script (start_date end_date : String)
    (localOff nowAbs : Int) : String :=
  match create_date_setup start_date end_date localOff nowAbs with
  | some p =>
    let script := "\n            set theStartDate to (current date)\n            "
    let script := script ++
      (if p.days_diff ≠ 0 then
        "set theStartDate to theStartDate + (" ++ toString p.days_diff ++
          " * days)\n"
      else "")
    let script := script ++
      "\n            set hours of theStartDate to " ++ toString p.hour ++
      "\n            set minutes of theStartDate to " ++ toString p.minute ++
      "\n            set seconds of theStartDate to " ++ toString p.second ++
      "\n            "
    script ++
      "\n            set theEndDate to theStartDate + (" ++
      ratRepr p.duration_hours ++ " * hours)\n            "
  | Option.none =>
    "\n            set theStartDate to date \"" ++ start_date ++
    "\"\n            set theEndDate to date \"" ++ end_date ++
    "\"\n            "

/-- The property-list construction of `CalendarModule.create_event`
(`src/utils/calendar.py` lines 45–66): `summary` is always the
`format_applescript_value`-escaped title; a truthy `location` adds
`location:` with the escaped value and a truthy `notes` adds
`description:`; a `None` or empty-string value adds nothing (Python
`if location:` / `if notes:` truthiness). -/
def build_properties (title : String) (location notes : Option String) :
    String :=
  let properties := "\x7bsummary:" ++ format_applescript_value (.str title) ++
    ", start date:theStartDate, end date:theEndDate"
  let properties := properties ++
    (match location with
     | some l =>
       if l = "" then ""
       else ", location:" ++ format_applescript_value (.str l)
     | Option.none => "")
  let properties := properties ++
    (match notes with
     | some n =>
       if n = "" then ""
       else ", description:" ++ format_applescript_value (.str n)
     | Option.none => "")
  properties ++ "\x7d"

/-- The script template of `CalendarModule.create_event` used when a
calendar name is given (`src/utils/calendar.py` lines 71–101), verbatim. -/
def script_named (date_setup properties safe_cal_name : String) : String :=
  "\n                " ++ date_setup ++
  "\n                \n                tell application \"Calendar\"\n                    try\n                        set foundCalendar to missing value\n                        set allCalendars to every calendar\n                        \n                        repeat with c in allCalendars\n                            set calName to name of c as string\n                            set targetName to " ++
  safe_cal_name ++
  " as string\n                            \n                            if calName is equal to targetName then\n                                set foundCalendar to c\n                                exit repeat\n                            end if\n                        end repeat\n                        \n                        if foundCalendar is missing value then\n                            set foundCalendar to first calendar whose writable is true\n                        end if\n                        \n                        tell foundCalendar\n                            make new event at end with properties " ++
  properties ++
  "\n                            return \"SUCCESS:Event created successfully in calendar \" & name of foundCalendar\n                        end tell\n                    on error errMsg\n                        return \"ERROR:\" & errMsg\n                    end try\n                end tell\n                "

/-- The script template of `CalendarModule.create_event` used when no
calendar name is given (`src/utils/calendar.py` lines 103–118),
verbatim. -/
def script_default (date_setup properties : String) : String :=
  "\n                " ++ date_setup ++
  "\n                \n                tell application \"Calendar\"\n                    try\n                        set defaultCalendar to first calendar whose writable is true\n                        \n                        tell defaultCalendar\n                            make new event at end with properties " ++
  properties ++
  "\n                            return \"SUCCESS:Event created successfully in default calendar \" & name of defaultCalendar\n                        end tell\n                    on error errMsg\n                        return \"ERROR:\" & errMsg\n                    end try\n                end tell\n                "

/-- The complete script assembled by `CalendarModule.create_event` for one
invocation: date setup, property list, and the calendar-resolution
template chosen by the truthiness of `calendar_name`. -/
def built_script (title start_date end_date : String)
    (location notes calendar_name : Option String) (localOff nowAbs : Int) :
    String :=
  let date_setup := create_date_setup_script start_date end_date localOff nowAbs
  let properties := build_properties title location notes
  match calendar_name with
  | some cn =>
    if cn = "" then script_default date_setup properties
    else script_named date_setup properties (format_applescript_value (.str cn))
  | Option.none => script_default date_setup properties

/-- `CalendarModule.create_event` (`src/utils/calendar.py` lines 32–133).
The whole body sits in one `try/except Exception`; the only operation in it
that can raise is the `run_applescript_async` subprocess call, embedded as
the `runtime` oracle mapping the generated script to either the stripped
stdout reply or a raised exception's text.  A reply is classified by
`classify`; a raised exception is caught by the `except` and turned into
`\x7b"success": False, "message": str(e)\x7d`.  The `Except` result type
records whether the call itself raises to its caller: an `.error` result
would model a propagated exception. -/
def create_event (title start_date end_date : String)
    (location notes calendar_name : Option String) (localOff nowAbs : Int)
    (runtime : String → Except String String) : Except String CalendarResult :=
  match runtime
      (built_script title start_date end_date location notes calendar_name
        localOff nowAbs) with
  | .ok result => .ok (classify result)
  | .error e => .ok { success := false, message := e }

/-- The keyword-parameter names accepted by the signature of
`CalendarModule.create_event` (`src/utils/calendar.py` lines 32–40),
besides `self`. -/
def create_event_params : List String :=
  ["title", "start_date", "end_date", "location", "notes", "calendar_name"]

/-- The keyword arguments the `create_event` tool of the MCP server
forwards to `CalendarModule.create_event` (`src/apple_mcp.py` lines
30–38), for every incoming `CalendarEvent` (the names are static; only the
values vary with the input). -/
def create_event_tool_kwargs : List String :=
  ["title", "start_date", "end_date", "location", "notes", "is_all_day",
   "calendar_name"]

/-- CPython keyword-argument binding: a call whose keyword-argument names
are not all parameter names of the callee raises
`TypeError: got an unexpected keyword argument` before the callee's body
(and hence its `try/except`) ever runs. -/
def pythonKwBind (accepted provided : List String) : Except String Unit :=
  if provided.all (fun k => accepted.contains k) then .ok ()
  else .error "TypeError"

/-- Modelled from the spec's injection-safety property ("an unescaped
double-quote that terminates the literal early"): scanning the characters
that follow a string literal's opening quote, a backslash consumes the next
character, and the first double quote not consumed this way is the one that
terminates the literal; `closeIdx body i` is that quote's index (starting
from `i`), or `none` when the literal never terminates. -/
def closeIdx : List Char → Nat → Option Nat
  | [], _ => Option.none
  | c :: rest, i =>
    if c = bs then
      match rest with
      | [] => Option.none
      | _ :: r2 => closeIdx r2 (i + 2)
    else if c = quo then some i
    else closeIdx rest (i + 1)

/-- The injection-safety property claimed for one input string: in the
rendered literal `format_applescript_value (.str s)` — an opening quote,
the escaped text, a closing quote — the first unescaped double quote after
the opening one is the final character, so no earlier quote terminates the
literal. -/
def literal_closes_at_end (s : String) : Prop :=
  closeIdx ((escape_string s).data ++ [quo]) 0 =
    some (escape_string s).data.length

/-- Claim C1: the claimed injection safety fails, because `escape_string`
does not escape backslashes.  For the two-character input `\"` (backslash,
double quote), escaping yields `\\"`, so the rendered literal is the five
characters `"\\""`: the backslash pair is an escaped backslash, and the
quote at index 2 of the body is unescaped and terminates the literal early
(its final quote sits at index 3), leaving a stray quote outside the
literal. -/
theorem escape_breakout_on_backslash_quote :
    (¬ ∀ s : String, literal_closes_at_end s) ∧
    escape_string "\\\"" = "\\\\\"" ∧
    (format_applescript_value (.str "\\\"")).data = [quo, bs, bs, quo, quo] ∧
    closeIdx ((escape_string "\\\"").data ++ [quo]) 0 = some 2 ∧
    (escape_string "\\\"").data.length = 3 := by
  refine ⟨fun h => ?_, by decide, by decide, by decide, by decide⟩
  have h2 := h "\\\""
  unfold literal_closes_at_end at h2
  exact absurd h2 (by decide)

/-- Claim C4: the record parser recovers nothing from what `format` emits.
`format_applescript_value` renders the record `\x7ba: 1, b: "x"\x7d` as the
text `\x7ba:1, b:"x"\x7d`, but `parse_applescript_record` scans for `:=` as
the key separator, which never occurs, so it returns the empty dictionary
instead of the claimed two-pair map. -/
theorem record_roundtrip_fails_empty :
    format_applescript_value (.record [("a", PyVal.int 1), ("b", PyVal.str "x")]) =
      "\x7ba:1, b:\"x\"\x7d" ∧
    parse_applescript_record
      (format_applescript_value
        (.record [("a", PyVal.int 1), ("b", PyVal.str "x")])) = [] ∧
    parse_applescript_record
      (format_applescript_value
        (.record [("a", PyVal.int 1), ("b", PyVal.str "x")])) ≠
      [("a", PyVal.int 1), ("b", PyVal.str "x")] := by
  refine ⟨rfl, rfl, fun h => List.noConfusion h⟩

/-- Claim C7: `parse_applescript_list` returns the empty list on empty
input; it splits on top-level commas only, so the comma inside the quoted
element of `\x7b"a, b", "c"\x7d` is not a split point and the outer braces
and element quotes are stripped, giving `["a, b", "c"]`; a brace-less
input is split on its top-level comma. -/
theorem parse_applescript_list_quote_aware :
    parse_applescript_list "" = [] ∧
    parse_applescript_list "\x7b\"a, b\", \"c\"\x7d" = ["a, b", "c"] ∧
    parse_applescript_list "a, b" = ["a", "b"] := by
  refine ⟨rfl, by decide, by decide⟩

/-- Claim C9: the MCP server's `create_event` tool always raises.  The
keyword names it forwards include `is_all_day`, which is not among the
parameters of `CalendarModule.create_event`, so CPython's keyword binding
raises `TypeError` before the callee's body (and its `try/except`) runs —
for every invocation, since the forwarded names are static. -/
theorem create_event_tool_binding_raises :
    pythonKwBind create_event_params create_event_tool_kwargs =
      .error "TypeError" ∧
    "is_all_day" ∈ create_event_tool_kwargs ∧
    "is_all_day" ∉ create_event_params := by
  refine ⟨rfl, by decide, by decide⟩

/-- Claim C2: for every input to `create_event` — including date strings
whose parsing fails (the fallback script is built instead of raising) and a
runtime whose launch fails (an `.error` outcome of the oracle) — the call
returns a `CalendarResult` (`.ok`), never a propagated exception, and on
the raising failure path the result is `success = false` with the
exception's text as the message. -/
theorem create_event_never_raises (title start_date end_date : String)
    (location notes calendar_name : Option String) (localOff nowAbs : Int)
    (runtime : String → Except String String) :
    ∃ r : CalendarResult,
      create_event title start_date end_date location notes calendar_name
        localOff nowAbs runtime = .ok r ∧
      ∀ e, runtime (built_script title start_date end_date location notes
          calendar_name localOff nowAbs) = .error e → r = ⟨false, e⟩ := by
  cases h : runtime (built_script title start_date end_date location notes
      calendar_name localOff nowAbs) with
  | ok v =>
    refine ⟨classify v, ?_, ?_⟩
    · simp [create_event, h]
    · intro e he
      exact absurd he (by simp)
  | error e =>
    refine ⟨⟨false, e⟩, ?_, ?_⟩
    · simp [create_event, h]
    · intro e' he'
      injection he' with h2
      rw [h2]

/-- Witness for C2: a runtime that fails to launch (raising with text
`boom`) still yields an `.ok` result, with `success = false` and the
exception text as message. -/
theorem create_event_never_raises_witness :
    create_event "t" "a" "b" Option.none Option.none Option.none 0 0
      (fun _ => .error "boom") = .ok ⟨false, "boom"⟩ := by
  obtain ⟨r, hr, he⟩ := create_event_never_raises "t" "a" "b" Option.none
    Option.none Option.none 0 0 (fun _ => .error "boom")
  rw [hr, he "boom" rfl]

/-- Claim C3 counterexample: the round-trip fails on the sixth listed
value.  `format` renders the string `a "quoted" string` with backslash
escapes, but `parse_value` strips only the outer quotes and never
unescapes, so the parsed value keeps the backslashes and differs from the
original. -/
theorem primitive_roundtrip_fails_on_quoted_string :
    parse_value (format_applescript_value (.str "a \"quoted\" string")) ≠
      .str "a \"quoted\" string" := by
  have hv : parse_value (format_applescript_value (.str "a \"quoted\" string")) =
      .str "a \\\"quoted\\\" string" := rfl
  rw [hv]
  intro h
  injection h with h2
  exact absurd h2 (by decide)

/-- Claim C3 as amended: `parse_value (format v) = v` holds for the five
non-string values `null`, `true`, `false`, `42`, `3.14`; for the string
`a "quoted" string` the round-trip instead returns the escaped text
`a \"quoted\" string`, because `parse_value` does not undo
`escape_string`'s backslash escapes. -/
theorem primitive_roundtrip_amended :
    parse_value (format_applescript_value .none) = .none ∧
    parse_value (format_applescript_value (.bool true)) = .bool true ∧
    parse_value (format_applescript_value (.bool false)) = .bool false ∧
    parse_value (format_applescript_value (.int 42)) = .int 42 ∧
    parse_value (format_applescript_value (.float (3.14 : ℚ))) =
      .float (3.14 : ℚ) ∧
    parse_value (format_applescript_value (.str "a \"quoted\" string")) =
      .str "a \\\"quoted\\\" string" := by
  refine ⟨?_, ?_, ?_, ?_, ?_, ?_⟩ <;> with_unfolding_all rfl

/-- Claim C6: on the concrete inputs `2025-04-22T09:00:00+09:00` and
`2025-04-22T10:00:00+09:00`, for every local zone offset and every value of
"now", the derived `days_diff` is the whole-day difference between the
start instant's local date (the instant is midnight UTC of 2025-04-22,
i.e. `daysFromCivil 2025 4 22 * 86400` epoch seconds) and local today, and
`duration_hours = 1`; moreover an input without an explicit offset is
treated as UTC (parsing the naive strings gives the same derivation as the
`+00:00` ones). -/
theorem date_setup_derivation (localOff nowAbs : Int) :
    (∃ p : DateParams,
      create_date_setup "2025-04-22T09:00:00+09:00"
        "2025-04-22T10:00:00+09:00" localOff nowAbs = some p ∧
      p.days_diff =
        Int.fdiv (daysFromCivil 2025 4 22 * 86400 + localOff) 86400 -
          Int.fdiv (nowAbs + localOff) 86400 ∧
      p.duration_hours = 1) ∧
    create_date_setup "2025-04-22T09:00:00" "2025-04-22T10:00:00"
        localOff nowAbs =
      create_date_setup "2025-04-22T09:00:00+00:00"
        "2025-04-22T10:00:00+00:00" localOff nowAbs := by
  constructor
  · have hs : parseISO "2025-04-22T09:00:00+09:00" =
        some ⟨1745312400, some 32400⟩ := by decide
    have he2 : parseISO "2025-04-22T10:00:00+09:00" =
        some ⟨1745316000, some 32400⟩ := by decide
    unfold create_date_setup
    rw [hs, he2]
    refine ⟨_, rfl, ?_, ?_⟩
    · rw [show daysFromCivil 2025 4 22 = 20200 from by decide]
      norm_num
    · norm_num
  · rfl

/-- Claim C10: whenever parsing either date string fails, the date-setup
computation falls back to a script that splices the caller-supplied
`start_date` and `end_date` verbatim into double-quoted `date` literals,
with no escaping applied — so any double quote in those inputs reaches the
generated script unescaped. -/
theorem fallback_embeds_dates_verbatim (start_date end_date : String)
    (localOff nowAbs : Int)
    (h : parseISO start_date = Option.none ∨ parseISO end_date = Option.none) :
    create_date_setup_script start_date end_date localOff nowAbs =
      "\n            set theStartDate to date \"" ++ start_date ++
      "\"\n            set theEndDate to date \"" ++ end_date ++
      "\"\n            " := by
  have hsetup : create_date_setup start_date end_date localOff nowAbs =
      Option.none := by
    unfold create_date_setup
    rcases h with h | h
    · rw [h]
    · rw [h]
      cases parseISO start_date <;> rfl
  unfold create_date_setup_script
  rw [hsetup]

/-- Witness for C10: the unparseable start string `bad"date` (with an
embedded double quote) is spliced verbatim into the fallback script, quote
included. -/
theorem fallback_embeds_dates_verbatim_witness :
    (parseISO "bad\"date" = Option.none ∨ parseISO "x" = Option.none) ∧
    create_date_setup_script "bad\"date" "x" 0 0 =
      "\n            set theStartDate to date \"bad\"date\"\n            set theEndDate to date \"x\"\n            " := by
  refine ⟨Or.inl (by decide), ?_⟩
  rw [fallback_embeds_dates_verbatim "bad\"date" "x" 0 0 (Or.inl (by decide))]
  rfl

/-- Appending the empty string is the identity. -/
theorem str_append_empty (s : String) : s ++ "" = s := by
  obtain ⟨l⟩ := s
  show String.mk (l ++ []) = String.mk l
  rw [List.append_nil]

/-- String concatenation is associative. -/
theorem str_append_assoc (a b c : String) : a ++ b ++ c = a ++ (b ++ c) := by
  obtain ⟨x⟩ := a
  obtain ⟨y⟩ := b
  obtain ⟨z⟩ := c
  show String.mk (x ++ y ++ z) = String.mk (x ++ (y ++ z))
  rw [List.append_assoc]

/-- A pattern is a prefix of itself followed by anything. -/
theorem hasPre_append (p r : List Char) : hasPre p (p ++ r) = true := by
  induction p with
  | nil => rfl
  | cons c cs ih => simp [hasPre, ih]

/-- `str.replace` leaves a string without any occurrence of the pattern
unchanged. -/
theorem replaceSubAux_not_occurs (pat rep cs : List Char)
    (h : occursIn pat cs = false) : replaceSubAux pat rep cs 0 = cs := by
  induction cs with
  | nil => rfl
  | cons c cs ih =>
    rw [occursIn] at h
    simp only [Bool.or_eq_false_iff] at h
    simp [replaceSubAux, h.1, ih h.2]

/-- A positive skip counter drops exactly the counted characters. -/
theorem replaceSubAux_skip (pat rep xs rest : List Char) :
    replaceSubAux pat rep (xs ++ rest) xs.length =
      replaceSubAux pat rep rest 0 := by
  induction xs with
  | nil => rfl
  | cons x xs ih => simp [replaceSubAux, ih]

/-- `str.replace` on a string that starts with the (nonempty) pattern
replaces that occurrence and continues after it. -/
theorem replaceSubAux_pat_head (pat rep rest : List Char) (hne : pat ≠ []) :
    replaceSubAux pat rep (pat ++ rest) 0 =
      rep ++ replaceSubAux pat rep rest 0 := by
  cases pat with
  | nil => exact absurd rfl hne
  | cons p ps =>
    have hp : hasPre (p :: ps) (p :: (ps ++ rest)) = true := by
      rw [← List.cons_append]
      exact hasPre_append _ _
    rw [List.cons_append, replaceSubAux]
    simp [hp, replaceSubAux_skip]

/-- `classify` on a reply that is the `SUCCESS:` sentinel followed by
sentinel-free text: success, with the text as the message. -/
theorem classify_success_of_free (rest : String)
    (h1 : occursIn ("SUCCESS:".data) rest.data = false)
    (h2 : occursIn ("ERROR:".data) rest.data = false) :
    classify ("SUCCESS:" ++ rest) = ⟨true, rest⟩ := by
  obtain ⟨l⟩ := rest
  have hdata : ("SUCCESS:" ++ String.mk l).data = "SUCCESS:".data ++ l := rfl
  unfold classify
  have hsucc : hasPre ("SUCCESS:".data) ("SUCCESS:" ++ String.mk l).data = true := by
    rw [hdata]
    exact hasPre_append _ _
  have hmsg : pyReplace (pyReplace ("SUCCESS:" ++ String.mk l) "SUCCESS:" "")
      "ERROR:" "" = String.mk l := by
    unfold pyReplace replaceSub
    rw [hdata, replaceSubAux_pat_head _ _ _ (by decide),
      replaceSubAux_not_occurs _ _ _ h1]
    simp only [List.nil_append]
    rw [replaceSubAux_not_occurs _ _ _ h2]
  rw [hsucc, hmsg]

/-- `classify` on a reply that is the `ERROR:` sentinel followed by
sentinel-free text: failure, with the text as the message. -/
theorem classify_error_of_free (rest : String)
    (h1 : occursIn ("SUCCESS:".data) rest.data = false)
    (h2 : occursIn ("ERROR:".data) rest.data = false) :
    classify ("ERROR:" ++ rest) = ⟨false, rest⟩ := by
  obtain ⟨l⟩ := rest
  have hdata : ("ERROR:" ++ String.mk l).data = "ERROR:".data ++ l := rfl
  unfold classify
  have hsucc : hasPre ("SUCCESS:".data) ("ERROR:" ++ String.mk l).data = false := by
    rw [hdata]
    simp [show ("SUCCESS:".data) = ['S', 'U', 'C', 'C', 'E', 'S', 'S', ':'] from rfl,
      show ("ERROR:".data) = ['E', 'R', 'R', 'O', 'R', ':'] from rfl, hasPre]
  have hnoS : occursIn ("SUCCESS:".data) ("ERROR:" ++ String.mk l).data = false := by
    rw [hdata]
    simp [show ("SUCCESS:".data) = ['S', 'U', 'C', 'C', 'E', 'S', 'S', ':'] from rfl,
      show ("ERROR:".data) = ['E', 'R', 'R', 'O', 'R', ':'] from rfl,
      occursIn, hasPre, h1]
  have hmsg : pyReplace (pyReplace ("ERROR:" ++ String.mk l) "SUCCESS:" "")
      "ERROR:" "" = String.mk l := by
    show String.mk (replaceSubAux ("ERROR:".data) ("".data)
      (replaceSubAux ("SUCCESS:".data) ("".data)
        ("ERROR:" ++ String.mk l).data 0) 0) = String.mk l
    rw [replaceSubAux_not_occurs _ _ _ hnoS, hdata,
      replaceSubAux_pat_head _ _ _ (by decide),
      replaceSubAux_not_occurs _ _ _ h2]
    rfl
  rw [hsucc, hmsg]

/-- Claim C5 counterexample: the claim says the message is the text after
the sentinel, but the code removes every occurrence of both sentinels with
`str.replace`.  For the reply `SUCCESS:SUCCESS:ok` the text after the
sentinel is `SUCCESS:ok`, while `create_event` returns the message `ok`. -/
theorem create_event_sentinel_not_suffix :
    create_event "t" "s" "e" Option.none Option.none Option.none 0 0
        (fun _ => .ok "SUCCESS:SUCCESS:ok") = .ok ⟨true, "ok"⟩ ∧
    (⟨true, "ok"⟩ : CalendarResult) ≠ ⟨true, "SUCCESS:ok"⟩ := by
  exact ⟨rfl, by decide⟩

/-- Claim C5 as amended: `create_event` classifies the runtime's reply by
sentinel prefix, with the message obtained by deleting every occurrence of
`SUCCESS:` and `ERROR:` from the reply; when the text after the sentinel
contains no sentinel substring this equals that text, so a `SUCCESS:`-led
reply yields success with the trailing text and an `ERROR:`-led reply
failure with the trailing text; the claim's two concrete example replies
behave exactly as stated. -/
theorem create_event_sentinel_amended (title start_date end_date : String)
    (location notes calendar_name : Option String) (localOff nowAbs : Int)
    (runtime : String → Except String String) (rest : String)
    (h1 : occursIn ("SUCCESS:".data) rest.data = false)
    (h2 : occursIn ("ERROR:".data) rest.data = false) :
    (runtime (built_script title start_date end_date location notes
        calendar_name localOff nowAbs) = .ok ("SUCCESS:" ++ rest) →
      create_event title start_date end_date location notes calendar_name
        localOff nowAbs runtime = .ok ⟨true, rest⟩) ∧
    (runtime (built_script title start_date end_date location notes
        calendar_name localOff nowAbs) = .ok ("ERROR:" ++ rest) →
      create_event title start_date end_date location notes calendar_name
        localOff nowAbs runtime = .ok ⟨false, rest⟩) ∧
    create_event title start_date end_date location notes calendar_name
        localOff nowAbs (fun _ => .ok "SUCCESS:Event created successfully") =
      .ok ⟨true, "Event created successfully"⟩ ∧
    create_event title start_date end_date location notes calendar_name
        localOff nowAbs (fun _ => .ok "ERROR:Calendar not found") =
      .ok ⟨false, "Calendar not found"⟩ := by
  refine ⟨?_, ?_, rfl, rfl⟩
  · intro hrun
    simp [create_event, hrun, classify_success_of_free rest h1 h2]
  · intro hrun
    simp [create_event, hrun, classify_error_of_free rest h1 h2]

/-- Witness for C5: the claim's first concrete example, derived from the
general sentinel theorem at sentinel-free trailing text. -/
theorem create_event_sentinel_amended_witness :
    create_event "t" "s" "e" Option.none Option.none Option.none 0 0
        (fun _ => .ok ("SUCCESS:" ++ "Event created successfully")) =
      .ok ⟨true, "Event created successfully"⟩ :=
  (create_event_sentinel_amended "t" "s" "e" Option.none Option.none
    Option.none 0 0 (fun _ => .ok ("SUCCESS:" ++ "Event created successfully"))
    "Event created successfully" (by decide) (by decide)).1 rfl

/-- Claim C8 counterexample: an empty-string `location` is a present value
(not `None`), yet Python's `if location:` treats it as falsy, so the
property list omits the location property instead of including the escaped
empty string; the result is identical to the absent case. -/
theorem location_present_empty_not_included :
    build_properties "t" (some "") Option.none =
      build_properties "t" Option.none Option.none ∧
    occursIn ("location".data)
      (build_properties "t" (some "") Option.none).data = false := by
  exact ⟨rfl, by decide⟩

/-- Claim C8 as amended: the title is always escaped via
`format_applescript_value`; a `location`/`notes` value that is absent or
the empty string contributes no property at all (omission, not a null
literal), and a nonempty value is escaped via `format_applescript_value`
and included as the `location:`/`description:` property. -/
theorem build_properties_amended (title l n : String) (hl : l ≠ "")
    (hn : n ≠ "") :
    build_properties title Option.none Option.none =
      "\x7bsummary:" ++ format_applescript_value (.str title) ++
        ", start date:theStartDate, end date:theEndDate" ++ "\x7d" ∧
    build_properties title (some "") (some "") =
      build_properties title Option.none Option.none ∧
    build_properties title (some l) Option.none =
      "\x7bsummary:" ++ format_applescript_value (.str title) ++
        ", start date:theStartDate, end date:theEndDate" ++ ", location:" ++
        format_applescript_value (.str l) ++ "\x7d" ∧
    build_properties title Option.none (some n) =
      "\x7bsummary:" ++ format_applescript_value (.str title) ++
        ", start date:theStartDate, end date:theEndDate" ++
        ", description:" ++ format_applescript_value (.str n) ++ "\x7d" ∧
    build_properties title (some l) (some n) =
      "\x7bsummary:" ++ format_applescript_value (.str title) ++
        ", start date:theStartDate, end date:theEndDate" ++ ", location:" ++
        format_applescript_value (.str l) ++ ", description:" ++
        format_applescript_value (.str n) ++ "\x7d" := by
  refine ⟨?_, rfl, ?_, ?_, ?_⟩ <;>
    simp only [build_properties, if_neg hl, if_neg hn, str_append_empty,
      str_append_assoc]

/-- Witness for C8: concrete nonempty location and notes are escaped and
included. -/
theorem build_properties_amended_witness :
    build_properties "t" (some "Seoul") (some "memo") =
      "\x7bsummary:\"t\", start date:theStartDate, end date:theEndDate, location:\"Seoul\", description:\"memo\"\x7d" := by
  have h := (build_properties_amended "t" "Seoul" "memo" (by decide)
    (by decide)).2.2.2.2
  rw [h]
  rfl

end WorkHelper
